import Mathlib

/-!
Shallow embedding of the menu_online restaurant self-ordering application
(src/app.py) and proofs about its order-submission transaction, admin order
listing, menu administration, admin gate and QR-link generation.

Modelling conventions:
* Python floats (menu prices, order totals) are modelled exactly as rationals
  `Rat`; the claims under study are structural equalities and inequalities of
  the sums the code itself computes, not facts about rounding.
* Timestamps are seconds (as `Int`) in the configured timezone; a calendar
  date is a day index `d : Nat`, so day `d` spans seconds
  `[86400*d, 86400*d + 86399]`, and `datetime(y,m,d,23,59,59)` of the source
  is second `86400*d + 23*3600 + 59*60 + 59` of the model.
* The SQLAlchemy session stages `db.add`/`db.flush` writes in memory and makes
  them durable only at `db.commit()`; the single commit in `page_order` either
  persists the whole staged change set or raises, leaving the durable store
  untouched.  The model exposes this as a `commitOk : Bool` parameter.
* The per-session Streamlit cart `st.session_state.cart` (a Python dict from
  menu-item id to quantity) is an association list `List (Nat × Nat)` in the
  iteration order of the dict.
* Autoincrement primary keys are modelled by explicit `nextOrderId` /
  `nextItemId` counters on the database state.
-/

/-- Row of the `menu_items` table (class `MenuItem`, src/app.py lines 49-59). -/
structure MenuItem where
  id : Nat
  name : String
  price : Rat
  category : String
  description : String
  image_url : String
  is_available : Bool
deriving DecidableEq

/-- Row of the `orders` table (class `Order`, src/app.py lines 62-76). -/
structure Order where
  id : Nat
  customer_name : String
  table_no : String
  contact : String
  note : String
  status : String
  total_price : Rat
  channel : String
  source_ip : String
  created_at : Int
  updated_at : Int
deriving DecidableEq

/-- Row of the `order_items` table (class `OrderItem`, src/app.py lines 79-89).
`item_id` is the nullable foreign key to `menu_items`. -/
structure OrderItem where
  id : Nat
  order_id : Nat
  item_id : Option Nat
  item_name : String
  unit_price : Rat
  quantity : Nat
deriving DecidableEq

/-- Durable database state: the three tables plus autoincrement counters. -/
structure DB where
  menu : List MenuItem
  orders : List Order
  order_items : List OrderItem
  nextOrderId : Nat
  nextItemId : Nat
deriving DecidableEq

/-- The contact form of `page_order` (src/app.py lines 267-272) together with
the forwarded client address read from the request headers (line 287). -/
structure OrderForm where
  customer_name : String
  table_no : String
  contact : String
  note : String
  source_ip : String
deriving DecidableEq

/-- Python `str.strip()`: leading and trailing whitespace removed. -/
def py_strip (s : String) : String :=
  ⟨((s.data.dropWhile Char.isWhitespace).reverse.dropWhile Char.isWhitespace).reverse⟩

/-- The primary-key lookup `db.query(MenuItem).get(mid)` used by the cart and
submission code (src/app.py lines 136, 245, 296). -/
def getMenuItem (db : DB) (mid : Nat) : Option MenuItem :=
  db.menu.find? (fun m => m.id == mid)

/-- The function `cart_total` (src/app.py lines 133-139): running total over
the cart of `price * qty`, counting only entries that still resolve to a menu
item whose `is_available` flag is set. -/
def cart_total (db : DB) (cart : List (Nat × Nat)) : Rat :=
  cart.foldl
    (fun total p =>
      match getMenuItem db p.1 with
      | some item => if item.is_available then total + item.price * (p.2 : Rat) else total
      | none => total)
    0

/-- The `OrderItem` rows staged by the submission loop of `page_order`
(src/app.py lines 295-306): one line per cart entry that still resolves,
capturing the current name and price; entries that do not resolve are skipped
by the `continue`.  `oid` is the flushed order id, `nid` the next line id. -/
def order_lines (db : DB) (oid : Nat) : Nat → List (Nat × Nat) → List OrderItem
  | _, [] => []
  | nid, (mid, qty) :: rest =>
    match getMenuItem db mid with
    | none => order_lines db oid nid rest
    | some item =>
      { id := nid, order_id := oid, item_id := some item.id, item_name := item.name,
        unit_price := item.price, quantity := qty } :: order_lines db oid (nid + 1) rest

/-- The running `total` accumulated by the same loop (src/app.py line 299):
`item.price * qty` for every cart entry that still resolves. -/
def order_lines_total (db : DB) : List (Nat × Nat) → Rat
  | [] => 0
  | (mid, qty) :: rest =>
    match getMenuItem db mid with
    | none => order_lines_total db rest
    | some item => item.price * (qty : Rat) + order_lines_total db rest

/-- Outcome surfaced by the submission handler: the empty-cart warning
(line 276), the success banner with order id and total (line 311), or the
exception propagated by a failed commit. -/
inductive SubmitOutcome where
  | emptyCartWarning
  | success (orderId : Nat) (total : Rat)
  | commitFailure
deriving DecidableEq

/-- The submission branch of `page_order` (src/app.py lines 274-312).
Returns the durable database, the session cart, and the surfaced outcome.
An empty cart is rejected before anything is staged.  Otherwise one `Order`
row with status `"NEW"` and the `OrderItem` rows of `order_lines` are staged
and committed as one transaction: if the commit fails, the durable store is
unchanged and the cart is not cleared (the `reset_cart()` of line 310 runs
only after a successful commit). -/
def page_order_submit (db : DB) (cart : List (Nat × Nat)) (form : OrderForm)
    (now : Int) (commitOk : Bool) : DB × List (Nat × Nat) × SubmitOutcome :=
  if cart.isEmpty then
    (db, cart, SubmitOutcome.emptyCartWarning)
  else
    let oid := db.nextOrderId
    let lines := order_lines db oid db.nextItemId cart
    let total := order_lines_total db cart
    let order : Order :=
      { id := oid
        customer_name := py_strip form.customer_name
        table_no := py_strip form.table_no
        contact := py_strip form.contact
        note := py_strip form.note
        status := "NEW"
        total_price := total
        channel := "onsite"
        source_ip := form.source_ip
        created_at := now
        updated_at := now }
    if commitOk then
      ({ menu := db.menu
         orders := db.orders ++ [order]
         order_items := db.order_items ++ lines
         nextOrderId := oid + 1
         nextItemId := db.nextItemId + lines.length },
       [], SubmitOutcome.success oid total)
    else
      (db, cart, SubmitOutcome.commitFailure)

/-- Monetary amount of one order line, `unit_price * quantity`. -/
def line_amount (l : OrderItem) : Rat :=
  l.unit_price * (l.quantity : Rat)

/-- Integrity of the durable store: the stored `total_price` of every order header equals
the sum of `unit_price * quantity` over the order lines that reference it. -/
def orders_consistent (db : DB) : Prop :=
  ∀ o ∈ db.orders,
    o.total_price = ((db.order_items.filter (fun l => l.order_id == o.id)).map line_amount).sum

/-- Second of 00:00:00 of day `d` (src/app.py line 338,
`datetime(d_from.year, d_from.month, d_from.day, 0, 0)`). -/
def day_start (d : Nat) : Int := 86400 * (d : Int)

/-- Second of 23:59:59 of day `d` (src/app.py line 339,
`datetime(d_to.year, d_to.month, d_to.day, 23, 59, 59)`). -/
def day_end (d : Nat) : Int := 86400 * (d : Int) + (23 * 3600 + 59 * 60 + 59)

/-- Substring test on character lists, used to model the SQL pattern
`%kw%`. -/
def str_has (needle : List Char) : List Char → Bool
  | [] => needle.isEmpty
  | c :: rest => needle.isPrefixOf (c :: rest) || str_has needle rest

/-- Case-insensitive substring match, modelling `column.ilike(f"%{kw}%")`
(src/app.py lines 343-344). -/
def like_match (kw field : String) : Bool :=
  str_has kw.toLower.data field.toLower.data

/-- The keyword predicate of the admin listing (src/app.py line 344):
case-insensitive substring match across customer name, table number and
contact. -/
def admin_keyword_match (kw : String) (o : Order) : Bool :=
  like_match kw o.customer_name || like_match kw o.table_no || like_match kw o.contact

/-- Sort key of the admin listing: creation time, descending
(src/app.py line 346, `order_by(Order.created_at.desc())`). -/
def created_desc (a b : Order) : Prop := b.created_at ≤ a.created_at

instance : DecidableRel created_desc :=
  fun a b => inferInstanceAs (Decidable (b.created_at ≤ a.created_at))

instance : IsTotal Order created_desc :=
  ⟨fun a b => le_total b.created_at a.created_at⟩

instance : IsTrans Order created_desc :=
  ⟨fun _ _ _ hab hbc => le_trans hbc hab⟩

/-- The query built by `page_orders_admin` (src/app.py lines 337-347):
date-range filter (inclusive at both ends, day granularity), status filter
applied only when the selection is non-empty (`if status_sel:`), keyword
filter applied only when the keyword is non-empty (`if keyword:`), then sort
by creation time descending. -/
def page_orders_admin_query (db : DB) (status_sel : List String)
    (d_from d_to : Nat) (keyword : String) : List Order :=
  let q1 := db.orders.filter (fun o => decide (day_start d_from ≤ o.created_at))
  let q2 := q1.filter (fun o => decide (o.created_at ≤ day_end d_to))
  let q3 := if status_sel.isEmpty then q2 else q2.filter (fun o => status_sel.contains o.status)
  let q4 := if keyword.isEmpty then q3 else q3.filter (admin_keyword_match keyword)
  List.insertionSort created_desc q4

/-- Deletion of a menu item in `page_menu_admin` (src/app.py lines 495-499,
`db.delete(selected); db.commit()`).  The `order_items` relationship has no
delete cascade and its foreign key is nullable (lines 59, 83, 89), so the ORM
nulls out `item_id` on the referencing order lines and deletes only the menu
row; every other column of the order lines is untouched. -/
def delete_menu_item (db : DB) (mid : Nat) : DB :=
  { db with
    menu := db.menu.filter (fun m => !(m.id == mid))
    order_items := db.order_items.map (fun l =>
      if l.item_id == some mid then { l with item_id := none } else l) }

/-- The admin gate `require_admin` (src/app.py lines 540-547).  The session
key `_admin_ok` is `Option Bool` (none = never set).  When the button is
pressed (`ok`), the key is overwritten with the comparison of the submitted
password against the configured one; the return value is
`st.session_state.get("_admin_ok", False)`. -/
def require_admin (admin_password : String) (admin_ok : Option Bool)
    (pw : String) (ok : Bool) : Option Bool × Bool :=
  let s := if ok then some (pw == admin_password) else admin_ok
  (s, s.getD false)

/-- Python `base_url.rstrip("/")`: trailing slash characters removed
(src/app.py lines 574, 603). -/
def rstrip_slash (s : String) : String :=
  ⟨(s.data.reverse.dropWhile (fun c => c == '/')).reverse⟩

/-- The ordering URL built by `page_qr` (src/app.py lines 574 and 603):
`base_url.rstrip("/") + f"/?{param_key}={table_id}"` with `"&mode=list"`
appended exactly when the mobile-layout checkbox is set. -/
def qr_url (base_url param_key table_id : String) (mobile_mode : Bool) : String :=
  rstrip_slash base_url ++ "/?" ++ param_key ++ "=" ++ table_id ++
    (if mobile_mode then "&mode=list" else "")

/-- Table identifiers of the batch generator (src/app.py lines 601-602):
`f"{pfx}{i}"` for `i in range(start_no, start_no + count)`. -/
def qr_batch_table_ids (pfx : String) (start_no count : Nat) : List String :=
  (List.range count).map (fun i => pfx ++ toString (start_no + i))

/-- One URL per generated table identifier in the batch loop
(src/app.py line 603). -/
def qr_batch_urls (base_url param_key : String) (mobile_mode : Bool)
    (pfx : String) (start_no count : Nat) : List String :=
  (qr_batch_table_ids pfx start_no count).map
    (fun tid => qr_url base_url param_key tid mobile_mode)

/-- Amount a cart entry contributes to the displayed cart total
(src/app.py lines 135-138): zero unless the entry resolves to an item whose
`is_available` flag is set. -/
def cart_amount (db : DB) (p : Nat × Nat) : Rat :=
  match getMenuItem db p.1 with
  | some item => if item.is_available then item.price * (p.2 : Rat) else 0
  | none => 0

/-- Amount a cart entry contributes to the submitted order total
(src/app.py lines 296-299): zero only when the entry no longer resolves. -/
def order_amount (db : DB) (p : Nat × Nat) : Rat :=
  match getMenuItem db p.1 with
  | some item => item.price * (p.2 : Rat)
  | none => 0

/-- Concrete two-item catalog used to exercise the theorems on explicit
inputs: item 1 is available at price 10, item 2 exists but is unavailable at
price 5, and no item has id 99. -/
def menuEx : List MenuItem :=
  [{ id := 1, name := "Beef Rice", price := 10, category := "Main",
     description := "", image_url := "", is_available := true },
   { id := 2, name := "Lime Soda", price := 5, category := "Drink",
     description := "", image_url := "", is_available := false }]

/-- Concrete database state with the catalog above and no orders yet. -/
def dbEx : DB :=
  { menu := menuEx, orders := [], order_items := [], nextOrderId := 1, nextItemId := 1 }

/-- Concrete contact form. -/
def formEx : OrderForm :=
  { customer_name := "Ann", table_no := "A3", contact := "", note := "", source_ip := "" }

/-- The running total of the submission loop equals the sum of
`unit_price * quantity` over the order lines the loop stages. -/
theorem order_lines_total_eq_sum (db : DB) (oid : Nat) :
    ∀ (nid : Nat) (cart : List (Nat × Nat)),
      ((order_lines db oid nid cart).map line_amount).sum = order_lines_total db cart
  | _, [] => by simp [order_lines, order_lines_total]
  | nid, (mid, qty) :: rest => by
    cases h : getMenuItem db mid with
    | none =>
      simp [order_lines, order_lines_total, h, order_lines_total_eq_sum db oid nid rest]
    | some item =>
      simp [order_lines, order_lines_total, h, line_amount,
        order_lines_total_eq_sum db oid (nid + 1) rest]

/-- The `cart_total` fold, started from any accumulator, equals the
accumulator plus the sum of the per-entry contributions. -/
theorem cart_total_foldl_eq (db : DB) :
    ∀ (cart : List (Nat × Nat)) (a : Rat),
      cart.foldl
        (fun total p =>
          match getMenuItem db p.1 with
          | some item => if item.is_available then total + item.price * (p.2 : Rat) else total
          | none => total) a
        = a + (cart.map (cart_amount db)).sum
  | [], a => by simp
  | (mid, qty) :: t, a => by
    cases hm : getMenuItem db mid with
    | none =>
      simp only [List.foldl_cons, List.map_cons, List.sum_cons, hm, cart_amount]
      rw [cart_total_foldl_eq db t a]
      ring
    | some item =>
      cases hav : item.is_available with
      | false =>
        simp only [List.foldl_cons, List.map_cons, List.sum_cons, hm, hav, cart_amount,
          if_neg Bool.false_ne_true]
        rw [cart_total_foldl_eq db t a]
        ring
      | true =>
        simp only [List.foldl_cons, List.map_cons, List.sum_cons, hm, hav, cart_amount,
          eq_self_iff_true, if_true]
        rw [cart_total_foldl_eq db t (a + item.price * (qty : Rat))]
        ring

/-- The displayed cart total is the sum of the per-entry contributions. -/
theorem cart_total_eq_sum (db : DB) (cart : List (Nat × Nat)) :
    cart_total db cart = (cart.map (cart_amount db)).sum := by
  rw [cart_total, cart_total_foldl_eq db cart 0, zero_add]

/-- The order total accumulated at submission is the sum of the per-entry
contributions. -/
theorem order_lines_total_eq_amount_sum (db : DB) :
    ∀ cart : List (Nat × Nat),
      order_lines_total db cart = (cart.map (order_amount db)).sum
  | [] => by simp [order_lines_total]
  | (mid, qty) :: t => by
    cases hm : getMenuItem db mid with
    | none =>
      simp [order_lines_total, order_amount, hm, order_lines_total_eq_amount_sum db t]
    | some item =>
      simp [order_lines_total, order_amount, hm, order_lines_total_eq_amount_sum db t]

/-- A list containing an element is not reported empty. -/
theorem isEmpty_false_of_ne_nil {α : Type} {l : List α} (h : l ≠ []) : l.isEmpty = false := by
  cases l with
  | nil => exact absurd rfl h
  | cons a t => rfl

/-- A cart entry that no longer resolves produces no order line, wherever it
sits in the cart, and does not shift the ids of the other lines. -/
theorem order_lines_skip (db : DB) (oid mid qty : Nat) (h : getMenuItem db mid = none) :
    ∀ (nid : Nat) (c1 c2 : List (Nat × Nat)),
      order_lines db oid nid (c1 ++ (mid, qty) :: c2) = order_lines db oid nid (c1 ++ c2)
  | _, [], c2 => by simp [order_lines, h]
  | nid, (m, q) :: t, c2 => by
    cases hm : getMenuItem db m with
    | none => simp [order_lines, hm, order_lines_skip db oid mid qty h nid t c2]
    | some item => simp [order_lines, hm, order_lines_skip db oid mid qty h (nid + 1) t c2]

/-- A cart entry that no longer resolves contributes nothing to the running
order total, wherever it sits in the cart. -/
theorem order_lines_total_skip (db : DB) (mid qty : Nat) (h : getMenuItem db mid = none) :
    ∀ (c1 c2 : List (Nat × Nat)),
      order_lines_total db (c1 ++ (mid, qty) :: c2) = order_lines_total db (c1 ++ c2)
  | [], c2 => by simp [order_lines_total, h]
  | (m, q) :: t, c2 => by
    cases hm : getMenuItem db m with
    | none => simp [order_lines_total, hm, order_lines_total_skip db mid qty h t c2]
    | some item => simp [order_lines_total, hm, order_lines_total_skip db mid qty h t c2]

/-- Every cart entry that still resolves yields an order line capturing the
current catalog name and price and the requested quantity. -/
theorem order_lines_mem (db : DB) (oid mid qty : Nat) (item : MenuItem)
    (hitem : getMenuItem db mid = some item) :
    ∀ (nid : Nat) (cart : List (Nat × Nat)), (mid, qty) ∈ cart →
      ∃ l ∈ order_lines db oid nid cart,
        l.item_id = some item.id ∧ l.unit_price = item.price ∧ l.quantity = qty
  | _, [], hmem => absurd hmem (List.not_mem_nil _)
  | nid, (m, q) :: t, hmem => by
    rcases List.mem_cons.mp hmem with heq | htail
    · injection heq with h1 h2
      subst h1
      subst h2
      simp only [order_lines, hitem]
      exact ⟨_, List.mem_cons_self _ _, rfl, rfl, rfl⟩
    · cases hm : getMenuItem db m with
      | none =>
        simp only [order_lines, hm]
        exact order_lines_mem db oid mid qty item hitem nid t htail
      | some it2 =>
        simp only [order_lines, hm]
        obtain ⟨l, hl, hprop⟩ := order_lines_mem db oid mid qty item hitem (nid + 1) t htail
        exact ⟨l, List.mem_cons_of_mem _ hl, hprop⟩

/-- Pointwise: an entry contributes no more to the displayed cart total than
to the submitted order total, as long as catalog prices are non-negative. -/
theorem cart_amount_le_order_amount (db : DB) (p : Nat × Nat)
    (hp : 0 ≤ order_amount db p) :
    cart_amount db p ≤ order_amount db p := by
  unfold order_amount at hp
  unfold cart_amount order_amount
  cases hm : getMenuItem db p.1 with
  | none => simp
  | some item =>
    rw [hm] at hp
    cases hav : item.is_available with
    | true => simp [hav]
    | false =>
      simp only [hav, Bool.false_eq_true, if_false]
      simpa using hp

/-- Summed over a cart: the displayed total is at most the submitted total,
as long as catalog prices are non-negative. -/
theorem cart_sum_le_order_sum (db : DB) (l : List (Nat × Nat))
    (hp : ∀ p ∈ l, 0 ≤ order_amount db p) :
    (l.map (cart_amount db)).sum ≤ (l.map (order_amount db)).sum :=
  List.sum_le_sum (fun p hpmem => cart_amount_le_order_amount db p (hp p hpmem))

/-- Membership in the admin listing when the status selection is empty: the
`if status_sel:` of src/app.py line 340 skips the status filter entirely, so
only the date window and the (possibly empty) keyword constrain the result. -/
theorem mem_admin_query_no_status (db : DB) (d_from d_to : Nat) (kw : String) (o : Order) :
    o ∈ page_orders_admin_query db [] d_from d_to kw ↔
      o ∈ db.orders ∧ day_start d_from ≤ o.created_at ∧ o.created_at ≤ day_end d_to ∧
        (kw = "" ∨ admin_keyword_match kw o = true) := by
  unfold page_orders_admin_query
  rw [List.Perm.mem_iff (List.perm_insertionSort created_desc _)]
  simp only [List.isEmpty_nil, eq_self_iff_true, if_true]
  by_cases hkw : kw = ""
  · subst hkw
    rw [if_pos (show ("".isEmpty = true) from rfl)]
    simp only [List.mem_filter, decide_eq_true_eq]
    tauto
  · have hne : kw.isEmpty = false := by
      cases hk : kw.isEmpty with
      | false => rfl
      | true => exact absurd ((String.isEmpty_iff kw).mp hk) hkw
    rw [if_neg (by simp [hne])]
    simp only [List.mem_filter, decide_eq_true_eq]
    tauto

/-- C3: for every submission with an empty cart, the handler stops at the
empty-cart check (src/app.py line 276): no order header or line is created,
the user sees the validation warning, and the durable database and the
session cart are unchanged, whatever the commit would have done. -/
theorem submit_empty_cart_rejected (db : DB) (form : OrderForm) (now : Int)
    (commitOk : Bool) :
    page_order_submit db [] form now commitOk = (db, [], SubmitOutcome.emptyCartWarning) := by
  simp [page_order_submit]

/-- C2: if the commit of a submission fails, nothing is committed: the
durable database is exactly the one from before the attempt (so in
particular no header without its lines and no mismatched total), the session
cart is kept, the failure is surfaced, and whatever header/line consistency
held before still holds. -/
theorem submit_commit_failure_atomic (db : DB) (cart : List (Nat × Nat))
    (form : OrderForm) (now : Int) (hne : cart ≠ []) :
    page_order_submit db cart form now false = (db, cart, SubmitOutcome.commitFailure) ∧
    (orders_consistent db → orders_consistent (page_order_submit db cart form now false).1) := by
  have hc : cart.isEmpty = false := isEmpty_false_of_ne_nil hne
  constructor
  · simp [page_order_submit, hc]
  · intro h
    simpa [page_order_submit, hc] using h

/-- Witness for C2 at a concrete non-empty cart. -/
theorem submit_commit_failure_atomic_witness :
    page_order_submit dbEx [(1, 2)] formEx 0 false = (dbEx, [(1, 2)], SubmitOutcome.commitFailure) :=
  (submit_commit_failure_atomic dbEx [(1, 2)] formEx 0 (by simp)).1

/-- C8: the admin gate (src/app.py lines 540-547).  Submitting the configured
secret sets the session flag to true and grants access; submitting a wrong
secret stores false and denies access; and a handler call that does not press
the login button leaves the stored flag untouched and reports its current
value, so a flag once true persists for the rest of the session. -/
theorem admin_gate_session_flag (secret pw : String) (s : Option Bool)
    (hw : pw ≠ secret) :
    require_admin secret s secret true = (some true, true) ∧
    require_admin secret s pw true = (some false, false) ∧
    (∀ prev : Option Bool, require_admin secret prev pw false = (prev, prev.getD false)) ∧
    require_admin secret (some true) pw false = (some true, true) := by
  refine ⟨?_, ?_, ?_, ?_⟩
  · simp [require_admin]
  · simp [require_admin, hw]
  · intro prev
    simp [require_admin]
  · simp [require_admin]

/-- Witness for C8 with the default secret and a wrong password. -/
theorem admin_gate_session_flag_witness :
    require_admin "changeme" none "changeme" true = (some true, true) ∧
    require_admin "changeme" none "wrong" true = (some false, false) :=
  ⟨(admin_gate_session_flag "changeme" "wrong" none (by decide)).1,
   (admin_gate_session_flag "changeme" "wrong" none (by decide)).2.1⟩

/-- C9: deleting a menu item (src/app.py lines 495-499) deletes no order
line: `order_items` keeps its length, and every line keeps its id, owning
order, captured name, captured price and quantity; only the nullable
`item_id` reference can change.  The menu row itself does become
unresolvable. -/
theorem delete_menu_item_preserves_order_lines (db : DB) (mid : Nat) :
    (delete_menu_item db mid).order_items.length = db.order_items.length ∧
    (∀ n : Nat,
      ((delete_menu_item db mid).order_items[n]?).map
          (fun l => (l.id, l.order_id, l.item_name, l.unit_price, l.quantity)) =
        (db.order_items[n]?).map
          (fun l => (l.id, l.order_id, l.item_name, l.unit_price, l.quantity))) ∧
    getMenuItem (delete_menu_item db mid) mid = none := by
  refine ⟨by simp [delete_menu_item], ?_, ?_⟩
  · intro n
    simp only [delete_menu_item, List.getElem?_map]
    cases h : db.order_items[n]? with
    | none => rfl
    | some l =>
      by_cases hid : l.item_id = some mid <;> simp [hid]
  · simp only [getMenuItem, delete_menu_item]
    rw [List.find?_eq_none]
    intro m hm
    have hmem := List.mem_filter.mp hm
    simpa using hmem.2

/-- C7 counterexample: the claimed formula
`base_url + "/?" + param + "=" + table_id` is not what the code computes for
every base URL: when the base URL ends in `/`, the code first strips the
trailing slashes (`base_url.rstrip("/")`, src/app.py line 574), so the
produced URL differs from the claimed concatenation. -/
theorem qr_url_claim_counterexample :
    qr_url "https://x.test/" "table" "A1" false ≠
      "https://x.test/" ++ "/?" ++ "table" ++ "=" ++ "A1" := by decide

/-- C7 amended: the link generator is a pure function of its four inputs and
produces `base_url.rstrip("/") + "/?" + param + "=" + table_id`, with
`"&mode=list"` appended exactly when the mobile flag is set; the spec example
`https://x.test/?table=A1&mode=list` holds as stated; and the batch variant
produces one such URL per table identifier `pfx + n` for every
`n ∈ [start_no, start_no + count)`. -/
theorem qr_url_amended (base_url param_key table_id pfx : String)
    (mobile_mode : Bool) (start_no count n : Nat) (hn : n < count) :
    qr_url base_url param_key table_id mobile_mode =
        rstrip_slash base_url ++ "/?" ++ param_key ++ "=" ++ table_id ++
          (if mobile_mode then "&mode=list" else "") ∧
    qr_url "https://x.test" "table" "A1" true = "https://x.test/?table=A1&mode=list" ∧
    (qr_batch_urls base_url param_key mobile_mode pfx start_no count).length = count ∧
    (qr_batch_urls base_url param_key mobile_mode pfx start_no count)[n]? =
      some (qr_url base_url param_key (pfx ++ toString (start_no + n)) mobile_mode) := by
  refine ⟨rfl, by decide, ?_, ?_⟩
  · simp [qr_batch_urls, qr_batch_table_ids]
  · simp [qr_batch_urls, qr_batch_table_ids, List.getElem?_map, List.getElem?_range, hn]

/-- Witness for the amended C7 at concrete inputs (third table of batch
`A1..A3`). -/
theorem qr_url_amended_witness :
    (qr_batch_urls "https://x.test" "table" true "A" 1 3)[1]? =
      some (qr_url "https://x.test" "table" ("A" ++ toString (1 + 1)) true) :=
  (qr_url_amended "https://x.test" "table" "A1" "A" true 1 3 1 (by decide)).2.2.2

/-- C1: submitting a non-empty cart in which at least one entry still
resolves creates exactly one order header, with status NEW, whose stored
`total_price` equals the sum of `unit_price * quantity` over the order lines
actually created for it (the lines appended to `order_items`), and the
session cart is empty afterwards. -/
theorem submit_order_total_matches_lines (db : DB) (cart : List (Nat × Nat))
    (form : OrderForm) (now : Int) (hne : cart ≠ [])
    (hres : ∃ p ∈ cart, (getMenuItem db p.1).isSome = true) :
    ∃ o : Order,
      (page_order_submit db cart form now true).1.orders = db.orders ++ [o] ∧
      o.status = "NEW" ∧
      (page_order_submit db cart form now true).1.order_items =
        db.order_items ++ order_lines db db.nextOrderId db.nextItemId cart ∧
      o.total_price =
        ((order_lines db db.nextOrderId db.nextItemId cart).map line_amount).sum ∧
      (page_order_submit db cart form now true).2.1 = [] := by
  have hc : cart.isEmpty = false := isEmpty_false_of_ne_nil hne
  simp only [page_order_submit, hc, Bool.false_eq_true, if_false, eq_self_iff_true, if_true]
  exact ⟨_, rfl, rfl, trivial,
    (order_lines_total_eq_sum db db.nextOrderId db.nextItemId cart).symm, trivial⟩

/-- Witness for C1: the spec scenario of a two-line cart (quantities 2
and 1). -/
theorem submit_order_total_matches_lines_witness :
    ∃ o : Order,
      (page_order_submit dbEx [(1, 2), (2, 1)] formEx 0 true).1.orders = dbEx.orders ++ [o] ∧
      o.status = "NEW" ∧
      (page_order_submit dbEx [(1, 2), (2, 1)] formEx 0 true).1.order_items =
        dbEx.order_items ++ order_lines dbEx dbEx.nextOrderId dbEx.nextItemId [(1, 2), (2, 1)] ∧
      o.total_price =
        ((order_lines dbEx dbEx.nextOrderId dbEx.nextItemId [(1, 2), (2, 1)]).map
          line_amount).sum ∧
      (page_order_submit dbEx [(1, 2), (2, 1)] formEx 0 true).2.1 = [] :=
  submit_order_total_matches_lines dbEx [(1, 2), (2, 1)] formEx 0 (by decide) (by decide)

/-- C4: a cart entry whose menu-item id no longer resolves at submission time
is silently skipped, wherever it sits in the cart: it produces no order line,
it contributes nothing to the order total, and the submission still succeeds
(no error is raised for it). -/
theorem submit_skips_dangling_entries (db : DB) (oid nid mid qty : Nat)
    (c1 c2 : List (Nat × Nat)) (form : OrderForm) (now : Int)
    (h : getMenuItem db mid = none) :
    order_lines db oid nid (c1 ++ (mid, qty) :: c2) = order_lines db oid nid (c1 ++ c2) ∧
    order_lines_total db (c1 ++ (mid, qty) :: c2) = order_lines_total db (c1 ++ c2) ∧
    (page_order_submit db (c1 ++ (mid, qty) :: c2) form now true).2.2 =
      SubmitOutcome.success db.nextOrderId (order_lines_total db (c1 ++ c2)) := by
  have hc : (c1 ++ (mid, qty) :: c2).isEmpty = false :=
    isEmpty_false_of_ne_nil (by simp)
  refine ⟨order_lines_skip db oid mid qty h nid c1 c2,
    order_lines_total_skip db mid qty h c1 c2, ?_⟩
  simp only [page_order_submit, hc, Bool.false_eq_true, if_false, eq_self_iff_true, if_true]
  rw [order_lines_total_skip db mid qty h c1 c2]

/-- Witness for C4: cart holding available item 1 plus dangling id 99. -/
theorem submit_skips_dangling_entries_witness :
    order_lines dbEx 1 1 ([(1, 1)] ++ (99, 5) :: []) = order_lines dbEx 1 1 ([(1, 1)] ++ []) ∧
    order_lines_total dbEx ([(1, 1)] ++ (99, 5) :: []) =
      order_lines_total dbEx ([(1, 1)] ++ []) ∧
    (page_order_submit dbEx ([(1, 1)] ++ (99, 5) :: []) formEx 0 true).2.2 =
      SubmitOutcome.success dbEx.nextOrderId (order_lines_total dbEx ([(1, 1)] ++ [])) :=
  submit_skips_dangling_entries dbEx 1 1 99 5 [(1, 1)] [] formEx 0 (by decide)

/-- C5: a cart entry whose menu item still exists but is flagged unavailable
is nevertheless turned into an order line at submission and its
`price * quantity` is included in the stored order total, while the displayed
cart total (`cart_total`) excludes it; for such an entry with positive price
the committed total is therefore strictly greater than the displayed total.
The hypotheses `hq`/`hp` are the data-model invariants: cart quantities are
positive and catalog contributions are non-negative. -/
theorem submit_counts_unavailable_entries (db : DB) (cart : List (Nat × Nat))
    (form : OrderForm) (now : Int) (mid qty : Nat) (item : MenuItem)
    (hmem : (mid, qty) ∈ cart)
    (hitem : getMenuItem db mid = some item)
    (hunavail : item.is_available = false)
    (hprice : 0 < item.price)
    (hq : ∀ p ∈ cart, 1 ≤ p.2)
    (hp : ∀ p ∈ cart, 0 ≤ order_amount db p) :
    (∃ l ∈ order_lines db db.nextOrderId db.nextItemId cart,
        l.item_id = some item.id ∧ l.unit_price = item.price ∧ l.quantity = qty) ∧
    cart_total db cart < order_lines_total db cart ∧
    (page_order_submit db cart form now true).2.2 =
      SubmitOutcome.success db.nextOrderId (order_lines_total db cart) := by
  refine ⟨order_lines_mem db db.nextOrderId mid qty item hitem db.nextItemId cart hmem,
    ?_, ?_⟩
  · have hqty : 1 ≤ qty := hq (mid, qty) hmem
    obtain ⟨c1, c2, rfl⟩ := List.append_of_mem hmem
    rw [cart_total_eq_sum, order_lines_total_eq_amount_sum]
    simp only [List.map_append, List.map_cons, List.sum_append, List.sum_cons]
    have h1 : (c1.map (cart_amount db)).sum ≤ (c1.map (order_amount db)).sum :=
      cart_sum_le_order_sum db c1
        (fun p hp2 => hp p (List.mem_append_left _ hp2))
    have h2 : (c2.map (cart_amount db)).sum ≤ (c2.map (order_amount db)).sum :=
      cart_sum_le_order_sum db c2
        (fun p hp2 => hp p (List.mem_append_right _ (List.mem_cons_of_mem _ hp2)))
    have hmid_cart : cart_amount db (mid, qty) = 0 := by
      simp [cart_amount, hitem, hunavail]
    have hmid_order : order_amount db (mid, qty) = item.price * (qty : Rat) := by
      simp [order_amount, hitem]
    have hq0 : (0 : Rat) < (qty : Rat) := by
      have h1q : (1 : Rat) ≤ (qty : Rat) := by exact_mod_cast hqty
      linarith
    have hpos : 0 < item.price * (qty : Rat) := mul_pos hprice hq0
    rw [hmid_cart, hmid_order]
    linarith
  · have hc : cart.isEmpty = false := isEmpty_false_of_ne_nil (List.ne_nil_of_mem hmem)
    simp only [page_order_submit, hc, Bool.false_eq_true, if_false, eq_self_iff_true, if_true]

/-- Witness for C5: the cart holds one unit of the existing-but-unavailable
item 2 (price 5); the displayed total is 0 while the committed total is 5. -/
theorem submit_counts_unavailable_entries_witness :
    (∃ l ∈ order_lines dbEx dbEx.nextOrderId dbEx.nextItemId [(2, 1)],
        l.item_id = some 2 ∧ l.unit_price = (5 : Rat) ∧ l.quantity = 1) ∧
    cart_total dbEx [(2, 1)] < order_lines_total dbEx [(2, 1)] ∧
    (page_order_submit dbEx [(2, 1)] formEx 0 true).2.2 =
      SubmitOutcome.success dbEx.nextOrderId (order_lines_total dbEx [(2, 1)]) :=
  submit_counts_unavailable_entries dbEx [(2, 1)] formEx 0 2 1
    { id := 2, name := "Lime Soda", price := 5, category := "Drink",
      description := "", image_url := "", is_available := false }
    (by decide) (by decide) rfl (by decide) (by decide)
    (by
      intro p hp2
      have hp1 : p = (2, 1) := by simpa using hp2
      subst hp1
      rw [show order_amount dbEx (2, 1) = 5 * ((1 : Nat) : Rat) from rfl]
      norm_num)

/-- C6: with the status and keyword filters disabled, the admin listing for
the date range `[d_from, d_to]` returns exactly the stored orders whose
creation timestamp lies between `d_from` 00:00:00 and `d_to` 23:59:59
inclusive (a permutation of the date-filtered table, hence the same
membership and multiplicities), sorted by creation time descending. -/
theorem admin_listing_date_range_sorted (db : DB) (d_from d_to : Nat) :
    (∀ o : Order, o ∈ page_orders_admin_query db [] d_from d_to "" ↔
      o ∈ db.orders ∧ day_start d_from ≤ o.created_at ∧ o.created_at ≤ day_end d_to) ∧
    List.Perm (page_orders_admin_query db [] d_from d_to "")
      ((db.orders.filter (fun o => decide (day_start d_from ≤ o.created_at))).filter
        (fun o => decide (o.created_at ≤ day_end d_to))) ∧
    List.Sorted created_desc (page_orders_admin_query db [] d_from d_to "") := by
  refine ⟨?_, ?_, ?_⟩
  · intro o
    rw [mem_admin_query_no_status]
    simp
  · unfold page_orders_admin_query
    simp only [List.isEmpty_nil, eq_self_iff_true, if_true]
    rw [if_pos (show ("".isEmpty = true) from rfl)]
    exact List.perm_insertionSort created_desc _
  · unfold page_orders_admin_query
    exact List.sorted_insertionSort created_desc _

/-- C10: an empty status selection applies no status filter at all: for any
keyword, an order is listed exactly when it is stored, lies in the date
window, and matches the (possibly absent) keyword — its status, whichever of
the five values it is, is never consulted, so empty selection means
"show all". -/
theorem admin_listing_empty_status_no_filter (db : DB) (d_from d_to : Nat)
    (kw : String) (o : Order) :
    o ∈ page_orders_admin_query db [] d_from d_to kw ↔
      o ∈ db.orders ∧ day_start d_from ≤ o.created_at ∧ o.created_at ≤ day_end d_to ∧
        (kw = "" ∨ admin_keyword_match kw o = true) :=
  mem_admin_query_no_status db d_from d_to kw o
